import Mathlib

/-!
Shallow embedding of the acquisition core of `src/bot.py`:
the extraction invoker (`run_yt_dlp`), the bounded stream fetcher
(`direct_download`), the acquisition orchestrator (`process_download`),
and the per-session retry state (`context.user_data`).

External effects (subprocess outcome, filesystem listing, HTTP responses)
are supplied as explicit environment values; machine state touched by the
code (the output file, the scratch directory, the log) is threaded
explicitly through the definitions.
-/

namespace Bot

/-! ### Configuration constants (bot.py lines 24-28) -/

def MAX_DIRECT_DOWNLOAD_MB : Nat := 80

def MAX_DIRECT_DOWNLOAD_BYTES : Nat := MAX_DIRECT_DOWNLOAD_MB * 1024 * 1024

def CHUNK_SIZE : Nat := 1024 * 256

def HTTP_TIMEOUT : Nat := 60

/-- Reserved knob, present in the source but unused by any logic. -/
def MAX_RETRIES : Nat := 2

/-! ### User-visible message constants (bot.py MESSAGES dict, the entries
the core paths use) -/

def MESSAGES_failed : String :=
  "❌ *Download failed*\n\nPossible reasons:\n• Site requires login or DRM protection\n• Bot is blocked by the site\n• File is too large (>80MB)\n• Invalid or expired URL\n\n💡 Try a direct file link or different URL"

def MESSAGES_no_previous_url : String :=
  "❌ No previous URL found. Please send a URL."

def MESSAGES_downloading : String :=
  "⏳ *Downloading…*\n_Please wait, this may take a moment_"

def MESSAGES_uploading : String :=
  "📤 *Uploading to Telegram…*"

/-! ### Python string primitives used by the source

The Python string methods the source relies on (`split`, `strip`,
`endswith`, `in`) are modelled structurally over the character list of
the string, with the semantics of the Python methods. -/

/-- Python `str.split(sep)` for a one-character separator. -/
def split_char (c : Char) : List Char → List (List Char)
  | [] => [[]]
  | x :: xs =>
      if x = c then [] :: split_char c xs
      else
        match split_char c xs with
        | [] => [[x]]
        | y :: ys => (x :: y) :: ys

/-- `s.split(sep)` on strings, one-character separator. -/
def str_split_char (s : String) (c : Char) : List String :=
  (split_char c s.data).map (fun l => String.mk l)

/-- Locate the first `://` in a character list; `some (before, after)`
when present. -/
def split_scheme : List Char → Option (List Char × List Char)
  | [] => none
  | c :: rest =>
      if c = ':' then
        match rest with
        | '/' :: '/' :: tail => some ([], tail)
        | _ => (split_scheme rest).map (fun p => (c :: p.1, p.2))
      else (split_scheme rest).map (fun p => (c :: p.1, p.2))

/-- Python `str.strip()`: drop whitespace from both ends. -/
def str_strip (s : String) : String :=
  String.mk
    (((s.data.dropWhile Char.isWhitespace).reverse.dropWhile
        Char.isWhitespace).reverse)

/-- Python `s.endswith(suffix)`. -/
def str_endswith (s suffix : String) : Bool :=
  suffix.data.isSuffixOf s.data

/-- Python `ch in s` for a single character. -/
def str_contains (s : String) (c : Char) : Bool :=
  s.data.contains c

/-- `os.path.join(a, b)` for the shapes the bot uses (relative second
component): empty first component yields the second unchanged, a trailing
separator is not doubled. -/
def os_path_join (a b : String) : String :=
  if a = "" then b
  else if str_endswith a "/" then a ++ b
  else a ++ "/" ++ b

/-- `os.path.basename`: everything after the last path separator. -/
def os_path_basename (s : String) : String :=
  String.mk ((split_char '/' s.data).getLastD [])

/-- Modelled from the Python standard library: the path component of
`urlparse(url)` for absolute http/https URLs (sans its leading slash,
which the basename extraction below ignores) — drop the fragment, the
scheme with its `://`, the authority (up to the next slash), and the
query. -/
def urlparse_path (url : String) : String :=
  let noFrag := (split_char '#' url.data).headD []
  match split_scheme noFrag with
  | none => ""
  | some sp =>
      match split_char '/' sp.2 with
      | [] => ""
      | _host :: segs =>
          let path := List.intercalate ['/'] segs
          String.mk ((split_char '?' path).headD [])

/-- Modelled from the Python standard library: `pathlib.Path(p).name` —
the final nonempty path component, with bare `.` components dropped. -/
def pathlib_name (p : String) : String :=
  let segs := (split_char '/' p.data).filter (fun s => s ≠ [] ∧ s ≠ ['.'])
  String.mk (segs.getLastD [])

/-! ### pick_filename_from_url (bot.py lines 111-117) -/

def pick_filename_from_url (url : String) : String :=
  let p := urlparse_path url
  let name := pathlib_name p
  let name := if name = "" then "download" else name
  let name :=
    String.mk ((split_char '#' ((split_char '?' name.data).headD [])).headD [])
  if name = "" then "download" else name

/-! ### run_yt_dlp (bot.py lines 158-191)

The child-process interaction is an environment value: either the binary
was absent (`FileNotFoundError`), some other exception escaped, or the
process completed with a return code and a captured error stream; on
completion the listing of `out_dir` (names with modification times) is
also environment data. -/

inductive SpawnOutcome where
  | fileNotFound
  | otherExc (msg : String)
  | completed (returncode : Int) (stderr : String)
deriving DecidableEq, Repr

structure FileEntry where
  name : String
  mtime : Nat
deriving DecidableEq, Repr

structure YtEnv where
  spawn : SpawnOutcome
  files : List FileEntry
deriving Repr

/-- `sorted(paths, key=os.path.getmtime, reverse=True)`: stable descending
sort by modification time. -/
def sort_by_mtime_desc (files : List FileEntry) : List FileEntry :=
  files.mergeSort (fun a b => b.mtime ≤ a.mtime)

/-- Extraction invoker: returns the produced file path (or `none`) together
with the log entries emitted, mirroring bot.py lines 158-191. -/
def run_yt_dlp (url out_dir : String) (env : YtEnv) : Option String × List String :=
  match env.spawn with
  | .fileNotFound =>
      (none, ["yt-dlp not found. Install it with: pip install yt-dlp"])
  | .otherExc e =>
      (none, ["Unexpected error in yt-dlp: " ++ e])
  | .completed rc stderr =>
      if rc ≠ 0 then
        (none, ["yt-dlp failed for " ++ url ++ ": " ++ stderr])
      else
        let files := sort_by_mtime_desc env.files
        match files.head? with
        | some f => (some (os_path_join out_dir f.name), [])
        | none => (none, [])

/-! ### direct_download (bot.py lines 194-247)

Environment: the HEAD probe outcome (absent = the probe raised, which the
inner `try` swallows), the GET connection (a raised exception before any
body arrives, or a status/content-type plus a body stream), the stdlib
`mimetypes.guess_extension` table, and the body as a sequence of events —
each event a received chunk of some byte size or a mid-stream exception. -/

structure HeadResp where
  status : Nat
  contentLength : Option String
deriving DecidableEq, Repr

inductive Ev where
  | chunk (size : Nat)
  | exn (msg : String)
deriving DecidableEq, Repr

structure DlEnv where
  headResult : Option HeadResp
  getConnect : Option String
  getStatus : Nat
  contentType : String
  guessExt : String → Option String
  events : List Ev

/-- Result record for one `direct_download` call: the returned value, the
log entries, the state of the output file on disk after return (`none`
means no file), the final value of the `out_path` variable, whether the
GET transfer was started, how many body chunks were consumed, and the
file's size after each write (for stating the mid-transfer invariant). -/
structure DlOut where
  result : Option String
  log : List String
  fileSize : Option Nat
  outPath : String
  getPerformed : Bool
  reads : Nat
  sizes : List Nat
deriving Repr

/-- Modelled from the Python standard library: `cl.isdigit()` composed
with `int(cl)` — parse a nonempty all-digit string, `none` otherwise. -/
def parse_content_length (s : String) : Option Nat :=
  if s.data ≠ [] ∧ s.data.all Char.isDigit then
    some (s.data.foldl (fun n c => n * 10 + (c.toNat - 48)) 0)
  else none

/-- The HEAD short-circuit test (bot.py lines 211-215): `some cl` when the
probe succeeded with a non-error status and a declared all-digit
content-length above the ceiling. -/
def head_too_large (env : DlEnv) : Option String :=
  match env.headResult with
  | none => none
  | some h =>
      if h.status < 400 then
        match h.contentLength with
        | none => none
        | some cl =>
            match parse_content_length cl with
            | some v => if v > MAX_DIRECT_DOWNLOAD_BYTES then some cl else none
            | none => none
      else none

/-- `r.headers.get("content-type", "").split(";")[0].strip()` (line 223). -/
def parse_content_type (raw : String) : String :=
  str_strip ((str_split_char raw ';').headD "")

/-- Extension adjustment (bot.py lines 225-228). -/
def adjust_out_path (out_path ct : String) (guessExt : String → Option String) :
    String :=
  if !str_contains (os_path_basename out_path) '.' && ct ≠ "" then
    let ext := (guessExt ct).getD ""
    if ext ≠ "" && !str_endswith out_path ext then out_path ++ ext else out_path
  else out_path

/-- The streaming loop (bot.py lines 230-240) plus the function-level
except handler (lines 243-247) for exceptions raised mid-stream, and the
final `return out_path if os.path.exists(out_path) else None` (line 242).
`total` is the running byte total, `fsize` the bytes written so far. -/
def stream_loop (url out_path : String) (headLog : List String) :
    List Ev → Nat → Nat → Nat → List Nat → DlOut
  | [], _total, fsize, reads, sizes =>
      { result := some out_path, log := headLog, fileSize := some fsize,
        outPath := out_path, getPerformed := true, reads := reads, sizes := sizes }
  | .exn e :: _, _total, _fsize, reads, sizes =>
      { result := none,
        log := headLog ++ ["Direct download failed for " ++ url ++ ": " ++ e],
        fileSize := none, outPath := out_path, getPerformed := true,
        reads := reads + 1, sizes := sizes }
  | .chunk n :: rest, total, fsize, reads, sizes =>
      if n = 0 then
        stream_loop url out_path headLog rest total fsize (reads + 1) sizes
      else if total + n > MAX_DIRECT_DOWNLOAD_BYTES then
        { result := none, log := headLog ++ ["Download exceeded limit for " ++ url],
          fileSize := none, outPath := out_path, getPerformed := true,
          reads := reads + 1, sizes := sizes }
      else
        stream_loop url out_path headLog rest (total + n) (fsize + n) (reads + 1)
          (sizes ++ [fsize + n])

/-- The log entry produced by the swallowed HEAD-probe failure
(bot.py lines 205-209). -/
def head_log (url : String) (env : DlEnv) : List String :=
  match env.headResult with
  | none => ["HEAD request failed for " ++ url]
  | some _ => []

/-- Bounded stream fetcher, mirroring bot.py lines 194-247. -/
def direct_download (url out_dir : String) (env : DlEnv) : DlOut :=
  let filename := pick_filename_from_url url
  let out_path := os_path_join out_dir filename
  let headLog := head_log url env
  match head_too_large env with
  | some cl =>
      { result := none,
        log := headLog ++ ["File too large: " ++ cl ++ " bytes for " ++ url],
        fileSize := none, outPath := out_path, getPerformed := false,
        reads := 0, sizes := [] }
  | none =>
      match env.getConnect with
      | some e =>
          { result := none,
            log := headLog ++ ["Direct download failed for " ++ url ++ ": " ++ e],
            fileSize := none, outPath := out_path, getPerformed := true,
            reads := 0, sizes := [] }
      | none =>
          if env.getStatus ≥ 400 then
            { result := none,
              log := headLog ++ ["HTTP " ++ toString env.getStatus ++ " for " ++ url],
              fileSize := none, outPath := out_path, getPerformed := true,
              reads := 0, sizes := [] }
          else
            let ct := parse_content_type env.contentType
            let out_path := adjust_out_path out_path ct env.guessExt
            stream_loop url out_path headLog env.events 0 0 0 []

/-! ### process_download (bot.py lines 291-315)

The orchestrator records the URL in the session's retry slot, opens a
scratch directory via `with tempfile.TemporaryDirectory()`, runs the
extraction invoker, falls back to the bounded stream fetcher when the
result is falsy, and either hands the file to delivery or shows the
unified failure message. The `with` statement removes the directory and
its contents on every exit path. -/

/-- Python truthiness of `str | None`: `None` and the empty string are
falsy (the source tests `if not file_path:`). -/
def falsy : Option String → Bool
  | none => true
  | some s => s.isEmpty

inductive Outcome where
  | delivered (path : String)
  | failed (msg : String)
deriving DecidableEq, Repr

inductive Call where
  | extract (url dir : String)
  | fetch (url dir : String)
deriving DecidableEq, Repr

structure Env where
  yt : YtEnv
  dl : DlEnv

structure PdOut where
  outcome : Outcome
  calls : List Call
  log : List String
  lastUrl : Option String
  tmpdirExists : Bool

/-- Lines 305-315: a falsy attempt result shows the unified failure
message, otherwise the file is handed to delivery. `dirAfter` is the
scratch directory's existence after the `with` block exits; the
`with tempfile.TemporaryDirectory()` statement removes the directory and
its contents on every exit path, so the orchestrator always passes
`false`. -/
def deliver_or_fail (fp : Option String) (calls : List Call) (log : List String)
    (last : Option String) (dirAfter : Bool) : PdOut :=
  match fp with
  | none =>
      { outcome := .failed MESSAGES_failed, calls := calls, log := log,
        lastUrl := last, tmpdirExists := dirAfter }
  | some p =>
      if p.isEmpty then
        { outcome := .failed MESSAGES_failed, calls := calls, log := log,
          lastUrl := last, tmpdirExists := dirAfter }
      else
        { outcome := .delivered p, calls := calls, log := log,
          lastUrl := last, tmpdirExists := dirAfter }

/-- Acquisition orchestrator, mirroring bot.py lines 291-315: record the
URL in the retry slot, open the scratch directory, run the extraction
invoker, fall back to the bounded stream fetcher when its result is
falsy, and resolve to delivery or the unified failure. -/
def process_download (url tmpdir : String) (env : Env) : PdOut :=
  let last := some url
  let ytRes := (run_yt_dlp url tmpdir env.yt).1
  let ytLog := (run_yt_dlp url tmpdir env.yt).2
  if falsy ytRes then
    let d := direct_download url tmpdir env.dl
    deliver_or_fail d.result [Call.extract url tmpdir, Call.fetch url tmpdir]
      (ytLog ++ d.log) last false
  else
    deliver_or_fail ytRes [Call.extract url tmpdir] ytLog last false

/-! ### Retry/session state (bot.py lines 296-297, 367, 383-405)

`context.user_data` is the per-session dictionary; the only key the bot
uses is `"last_url"`. The framework keys these dictionaries by session,
modelled as a map from session id to per-session data. -/

structure UserData where
  last_url : Option String
deriving DecidableEq, Repr

def empty_user_data : UserData := ⟨none⟩

/-- `context.user_data["last_url"] = url` (line 297). -/
def record_last_url (d : UserData) (url : String) : UserData :=
  { d with last_url := some url }

/-- `context.user_data.clear()` (line 367). -/
def clear_user_data (_d : UserData) : UserData :=
  ⟨none⟩

/-- `context.user_data.get("last_url")` (line 384). -/
def get_last_url (d : UserData) : Option String :=
  d.last_url

def SessionMap : Type := String → UserData

def session_record (m : SessionMap) (s url : String) : SessionMap :=
  fun t => if t = s then record_last_url (m t) url else m t

def session_clear (m : SessionMap) (s : String) : SessionMap :=
  fun t => if t = s then clear_user_data (m t) else m t

def session_last (m : SessionMap) (s : String) : Option String :=
  get_last_url (m s)

def session_empty : SessionMap := fun _ => empty_user_data

/-! ### Derived measures on body streams, used to state the claims -/

/-- Total declared bytes of the chunks strictly before the first
mid-stream exception (all chunks when no exception occurs). -/
def chunks_before_exn : List Ev → Nat
  | [] => 0
  | .exn _ :: _ => 0
  | .chunk n :: rest => n + chunks_before_exn rest

/-- Whether the body stream raises before it is exhausted. -/
def has_exn : List Ev → Bool
  | [] => false
  | .exn _ :: _ => true
  | .chunk _ :: rest => has_exn rest

inductive RetryOutcome where
  | prompt (msg : String)
  | redownload (url : String)
deriving DecidableEq, Repr

/-- The `"retry"` branch of `handle_callback` (bot.py lines 383-405):
reports "no previous URL" when the slot is falsy, otherwise replays the
download with the recorded URL. -/
def handle_retry (d : UserData) : RetryOutcome :=
  match get_last_url d with
  | none => .prompt MESSAGES_no_previous_url
  | some u =>
      if u.isEmpty then .prompt MESSAGES_no_previous_url
      else .redownload u

/-! ### Concrete environments, used for closed instances -/

/-- Fragment of the stdlib mimetypes table used by concrete instances. -/
def guess_ext_mp4 : String → Option String :=
  fun ct => if ct = "video/mp4" then some ".mp4" else none

def dl_env_ok : DlEnv :=
  { headResult := some ⟨200, some "12"⟩, getConnect := none, getStatus := 200,
    contentType := "video/mp4", guessExt := guess_ext_mp4,
    events := [Ev.chunk 5, Ev.chunk 7] }

def dl_env_http404 : DlEnv :=
  { dl_env_ok with getStatus := 404 }

def dl_env_http500 : DlEnv :=
  { dl_env_ok with getStatus := 500 }

/-- No declared content-length, body streams three 40 MiB chunks. -/
def dl_env_headless_exceed : DlEnv :=
  { headResult := none, getConnect := none, getStatus := 200, contentType := "",
    guessExt := guess_ext_mp4,
    events := [Ev.chunk (40 * 1024 * 1024), Ev.chunk (40 * 1024 * 1024),
               Ev.chunk (40 * 1024 * 1024)] }

/-- HEAD declares 200 MiB, above the 80 MiB ceiling. -/
def dl_env_declared_too_large : DlEnv :=
  { headResult := some ⟨200, some "209715200"⟩, getConnect := none,
    getStatus := 200, contentType := "", guessExt := guess_ext_mp4,
    events := [Ev.chunk 5] }

def dl_env_midstream_exn : DlEnv :=
  { headResult := some ⟨200, none⟩, getConnect := none, getStatus := 200,
    contentType := "", guessExt := guess_ext_mp4,
    events := [Ev.chunk 5, Ev.exn "connection reset"] }

def yt_env_nonzero_exit : YtEnv :=
  ⟨SpawnOutcome.completed 1 "login required", []⟩

def yt_env_outputs : YtEnv :=
  ⟨SpawnOutcome.completed 0 "",
   [⟨"a.info.json", 3⟩, ⟨"b.mp4", 9⟩, ⟨"c.part", 7⟩]⟩

def pd_env_404 : Env :=
  { yt := yt_env_nonzero_exit, dl := dl_env_http404 }

def pd_env_500 : Env :=
  { yt := yt_env_nonzero_exit, dl := dl_env_http500 }

def pd_env_fallback_ok : Env :=
  { yt := yt_env_nonzero_exit, dl := dl_env_ok }

/-! ## Helper lemmas -/

theorem append_ne_empty_of_right (a b : String) (h : b ≠ "") : a ++ b ≠ "" := by
  intro hab
  apply h
  apply String.ext
  have hd := congrArg String.data hab
  simp only [String.data_append] at hd
  exact (List.append_eq_nil.mp hd).2

theorem append_ne_empty_of_left (a b : String) (h : a ≠ "") : a ++ b ≠ "" := by
  intro hab
  apply h
  apply String.ext
  have hd := congrArg String.data hab
  simp only [String.data_append] at hd
  exact (List.append_eq_nil.mp hd).1

theorem os_path_join_ne_empty (a b : String) (h : b ≠ "") :
    os_path_join a b ≠ "" := by
  unfold os_path_join
  split
  · exact h
  · split
    · exact append_ne_empty_of_right a b h
    · exact append_ne_empty_of_right (a ++ "/") b h

theorem os_path_join_ne_empty_left (a b : String) (h : a ≠ "") :
    os_path_join a b ≠ "" := by
  unfold os_path_join
  split
  · exact absurd (by assumption) h
  · split
    · exact append_ne_empty_of_left a b h
    · exact append_ne_empty_of_left (a ++ "/") b (append_ne_empty_of_left a "/" h)

theorem ite_download_ne_empty (s : String) :
    (if s = "" then "download" else s) ≠ "" := by
  split
  · decide
  · assumption

theorem pick_filename_ne_empty (url : String) :
    pick_filename_from_url url ≠ "" := by
  unfold pick_filename_from_url
  dsimp only
  exact ite_download_ne_empty _

theorem falsy_none : falsy none = true := rfl

theorem falsy_some (p : String) : falsy (some p) = p.isEmpty := rfl

theorem falsy_eq_false_of_ne_empty (p : String) (h : p ≠ "") :
    falsy (some p) = false := by
  rw [falsy_some]
  exact Bool.eq_false_iff.mpr (fun he => h ((String.isEmpty_iff p).mp he))

theorem run_yt_dlp_some_ne_empty (url out_dir : String) (env : YtEnv)
    (hdir : out_dir ≠ "") (p : String)
    (h : (run_yt_dlp url out_dir env).1 = some p) : p ≠ "" := by
  unfold run_yt_dlp at h
  cases hsp : env.spawn with
  | fileNotFound => rw [hsp] at h; simp at h
  | otherExc e => rw [hsp] at h; simp at h
  | completed rc stderr =>
      rw [hsp] at h
      dsimp only at h
      by_cases hrc : rc ≠ 0
      · rw [if_pos hrc] at h; simp at h
      · rw [if_neg hrc] at h
        cases hh : (sort_by_mtime_desc env.files).head? with
        | none => rw [hh] at h; simp at h
        | some f =>
            rw [hh] at h
            simp only [Option.some.injEq] at h
            rw [← h]
            exact os_path_join_ne_empty_left out_dir f.name hdir

theorem deliver_or_fail_calls (fp : Option String) (c : List Call)
    (l : List String) (last : Option String) (b : Bool) :
    (deliver_or_fail fp c l last b).calls = c := by
  unfold deliver_or_fail
  cases fp with
  | none => rfl
  | some p => dsimp only; split <;> rfl

theorem deliver_or_fail_log (fp : Option String) (c : List Call)
    (l : List String) (last : Option String) (b : Bool) :
    (deliver_or_fail fp c l last b).log = l := by
  unfold deliver_or_fail
  cases fp with
  | none => rfl
  | some p => dsimp only; split <;> rfl

theorem deliver_or_fail_tmpdir (fp : Option String) (c : List Call)
    (l : List String) (last : Option String) (b : Bool) :
    (deliver_or_fail fp c l last b).tmpdirExists = b := by
  unfold deliver_or_fail
  cases fp with
  | none => rfl
  | some p => dsimp only; split <;> rfl

theorem deliver_or_fail_outcome_falsy (fp : Option String) (c : List Call)
    (l : List String) (last : Option String) (b : Bool) (h : falsy fp = true) :
    (deliver_or_fail fp c l last b).outcome = .failed MESSAGES_failed := by
  unfold deliver_or_fail
  cases fp with
  | none => rfl
  | some p =>
      rw [falsy_some] at h
      dsimp only
      rw [if_pos h]

theorem deliver_or_fail_outcome_truthy (fp : Option String) (c : List Call)
    (l : List String) (last : Option String) (b : Bool) (p : String)
    (hp : fp = some p) (hne : p.isEmpty = false) :
    (deliver_or_fail fp c l last b).outcome = .delivered p := by
  subst hp
  unfold deliver_or_fail
  dsimp only
  rw [hne]
  rfl

theorem stream_loop_getPerformed (url op : String) (hl : List String)
    (evs : List Ev) (total fsize reads : Nat) (sizes : List Nat) :
    (stream_loop url op hl evs total fsize reads sizes).getPerformed = true := by
  induction evs generalizing total fsize reads sizes with
  | nil => rfl
  | cons ev rest ih =>
      cases ev with
      | exn e => rfl
      | chunk n =>
          rw [stream_loop]
          split
          · exact ih ..
          · split
            · rfl
            · exact ih ..

theorem stream_loop_outPath (url op : String) (hl : List String)
    (evs : List Ev) (total fsize reads : Nat) (sizes : List Nat) :
    (stream_loop url op hl evs total fsize reads sizes).outPath = op := by
  induction evs generalizing total fsize reads sizes with
  | nil => rfl
  | cons ev rest ih =>
      cases ev with
      | exn e => rfl
      | chunk n =>
          rw [stream_loop]
          split
          · exact ih ..
          · split
            · rfl
            · exact ih ..

theorem stream_loop_result_some (url op : String) (hl : List String)
    (evs : List Ev) (total fsize reads : Nat) (sizes : List Nat) (p : String)
    (h : (stream_loop url op hl evs total fsize reads sizes).result = some p) :
    p = op := by
  induction evs generalizing total fsize reads sizes with
  | nil => rw [stream_loop] at h; simp only [Option.some.injEq] at h; exact h.symm
  | cons ev rest ih =>
      cases ev with
      | exn e => rw [stream_loop] at h; simp at h
      | chunk n =>
          rw [stream_loop] at h
          split at h
          · exact ih _ _ _ _ h
          · split at h
            · simp at h
            · exact ih _ _ _ _ h

theorem stream_loop_none_fileSize (url op : String) (hl : List String)
    (evs : List Ev) (total fsize reads : Nat) (sizes : List Nat)
    (h : (stream_loop url op hl evs total fsize reads sizes).result = none) :
    (stream_loop url op hl evs total fsize reads sizes).fileSize = none := by
  induction evs generalizing total fsize reads sizes with
  | nil => rw [stream_loop] at h; simp at h
  | cons ev rest ih =>
      cases ev with
      | exn e => rfl
      | chunk n =>
          rw [stream_loop] at h ⊢
          by_cases hn : n = 0
          · rw [if_pos hn] at h ⊢
            exact ih _ _ _ _ h
          · rw [if_neg hn] at h ⊢
            by_cases hm : total + n > MAX_DIRECT_DOWNLOAD_BYTES
            · rw [if_pos hm]
            · rw [if_neg hm] at h ⊢
              exact ih _ _ _ _ h

theorem stream_loop_none_log (url op : String) (hl : List String)
    (evs : List Ev) (total fsize reads : Nat) (sizes : List Nat)
    (h : (stream_loop url op hl evs total fsize reads sizes).result = none) :
    ∃ m, (stream_loop url op hl evs total fsize reads sizes).log = hl ++ [m] := by
  induction evs generalizing total fsize reads sizes with
  | nil => rw [stream_loop] at h; simp at h
  | cons ev rest ih =>
      cases ev with
      | exn e => exact ⟨_, rfl⟩
      | chunk n =>
          rw [stream_loop] at h ⊢
          by_cases hn : n = 0
          · rw [if_pos hn] at h ⊢
            exact ih _ _ _ _ h
          · rw [if_neg hn] at h ⊢
            by_cases hm : total + n > MAX_DIRECT_DOWNLOAD_BYTES
            · rw [if_pos hm]
              exact ⟨_, rfl⟩
            · rw [if_neg hm] at h ⊢
              exact ih _ _ _ _ h

theorem stream_loop_abort (url op : String) (hl : List String)
    (evs : List Ev) (total fsize reads : Nat) (sizes : List Nat)
    (htot : total ≤ MAX_DIRECT_DOWNLOAD_BYTES)
    (hexc : MAX_DIRECT_DOWNLOAD_BYTES < total + chunks_before_exn evs) :
    (stream_loop url op hl evs total fsize reads sizes).result = none ∧
    (stream_loop url op hl evs total fsize reads sizes).fileSize = none ∧
    (stream_loop url op hl evs total fsize reads sizes).log =
      hl ++ ["Download exceeded limit for " ++ url] := by
  induction evs generalizing total fsize reads sizes with
  | nil => simp [chunks_before_exn] at hexc; omega
  | cons ev rest ih =>
      cases ev with
      | exn e => simp [chunks_before_exn] at hexc; omega
      | chunk n =>
          rw [stream_loop]
          simp only [chunks_before_exn] at hexc
          by_cases hn : n = 0
          · rw [if_pos hn]
            subst hn
            exact ih total fsize (reads + 1) sizes htot (by omega)
          · rw [if_neg hn]
            by_cases hm : total + n > MAX_DIRECT_DOWNLOAD_BYTES
            · rw [if_pos hm]
              exact ⟨rfl, rfl, rfl⟩
            · rw [if_neg hm]
              exact ih (total + n) (fsize + n) (reads + 1) (sizes ++ [fsize + n])
                (by omega) (by omega)

theorem stream_loop_exn (url op : String) (hl : List String)
    (evs : List Ev) (total fsize reads : Nat) (sizes : List Nat)
    (hexn : has_exn evs = true)
    (htot : total + chunks_before_exn evs ≤ MAX_DIRECT_DOWNLOAD_BYTES) :
    (stream_loop url op hl evs total fsize reads sizes).result = none ∧
    (stream_loop url op hl evs total fsize reads sizes).fileSize = none ∧
    ∃ e, (stream_loop url op hl evs total fsize reads sizes).log =
      hl ++ ["Direct download failed for " ++ url ++ ": " ++ e] := by
  induction evs generalizing total fsize reads sizes with
  | nil => simp [has_exn] at hexn
  | cons ev rest ih =>
      cases ev with
      | exn e => exact ⟨rfl, rfl, e, rfl⟩
      | chunk n =>
          rw [stream_loop]
          simp only [has_exn] at hexn
          simp only [chunks_before_exn] at htot
          by_cases hn : n = 0
          · rw [if_pos hn]
            subst hn
            exact ih total fsize (reads + 1) sizes hexn (by omega)
          · rw [if_neg hn]
            by_cases hm : total + n > MAX_DIRECT_DOWNLOAD_BYTES
            · omega
            · rw [if_neg hm]
              exact ih (total + n) (fsize + n) (reads + 1) (sizes ++ [fsize + n])
                hexn (by omega)

theorem stream_loop_size_bound (url op : String) (hl : List String)
    (evs : List Ev) (total fsize reads : Nat) (sizes : List Nat)
    (hfs : fsize ≤ total) (htot : total ≤ MAX_DIRECT_DOWNLOAD_BYTES)
    (hsz : ∀ s ∈ sizes, s ≤ MAX_DIRECT_DOWNLOAD_BYTES) :
    (∀ s ∈ (stream_loop url op hl evs total fsize reads sizes).sizes,
        s ≤ MAX_DIRECT_DOWNLOAD_BYTES) ∧
    (∀ n, (stream_loop url op hl evs total fsize reads sizes).fileSize = some n →
        n ≤ MAX_DIRECT_DOWNLOAD_BYTES) ∧
    (∀ p, (stream_loop url op hl evs total fsize reads sizes).result = some p →
        ∃ n, (stream_loop url op hl evs total fsize reads sizes).fileSize = some n ∧
          n ≤ MAX_DIRECT_DOWNLOAD_BYTES) := by
  induction evs generalizing total fsize reads sizes with
  | nil =>
      rw [stream_loop]
      refine ⟨hsz, ?_, ?_⟩
      · intro n hn
        simp only [Option.some.injEq] at hn
        omega
      · intro p _
        exact ⟨fsize, rfl, by omega⟩
  | cons ev rest ih =>
      cases ev with
      | exn e =>
          rw [stream_loop]
          refine ⟨hsz, ?_, ?_⟩
          · intro n hn; simp at hn
          · intro p hp; simp at hp
      | chunk n =>
          rw [stream_loop]
          by_cases hn : n = 0
          · rw [if_pos hn]
            exact ih total fsize (reads + 1) sizes hfs htot hsz
          · rw [if_neg hn]
            by_cases hm : total + n > MAX_DIRECT_DOWNLOAD_BYTES
            · rw [if_pos hm]
              refine ⟨hsz, ?_, ?_⟩
              · intro k hk; simp at hk
              · intro p hp; simp at hp
            · rw [if_neg hm]
              refine ih (total + n) (fsize + n) (reads + 1) (sizes ++ [fsize + n])
                (by omega) (by omega) ?_
              intro s hs
              rcases List.mem_append.mp hs with hs | hs
              · exact hsz s hs
              · rcases List.mem_singleton.mp hs with rfl
                omega

/-! ### Branch characterizations of direct_download -/

theorem direct_download_too_large (url out_dir : String) (env : DlEnv)
    (cl : String) (h : head_too_large env = some cl) :
    direct_download url out_dir env =
      { result := none,
        log := head_log url env ++ ["File too large: " ++ cl ++ " bytes for " ++ url],
        fileSize := none,
        outPath := os_path_join out_dir (pick_filename_from_url url),
        getPerformed := false, reads := 0, sizes := [] } := by
  unfold direct_download
  rw [h]

theorem direct_download_connect_exn (url out_dir : String) (env : DlEnv)
    (e : String) (h1 : head_too_large env = none) (h2 : env.getConnect = some e) :
    direct_download url out_dir env =
      { result := none,
        log := head_log url env ++ ["Direct download failed for " ++ url ++ ": " ++ e],
        fileSize := none,
        outPath := os_path_join out_dir (pick_filename_from_url url),
        getPerformed := true, reads := 0, sizes := [] } := by
  unfold direct_download
  rw [h1, h2]

theorem direct_download_status_error (url out_dir : String) (env : DlEnv)
    (h1 : head_too_large env = none) (h2 : env.getConnect = none)
    (h3 : 400 ≤ env.getStatus) :
    direct_download url out_dir env =
      { result := none,
        log := head_log url env ++ ["HTTP " ++ toString env.getStatus ++ " for " ++ url],
        fileSize := none,
        outPath := os_path_join out_dir (pick_filename_from_url url),
        getPerformed := true, reads := 0, sizes := [] } := by
  unfold direct_download
  rw [h1, h2]
  dsimp only
  rw [if_pos h3]

theorem direct_download_stream (url out_dir : String) (env : DlEnv)
    (h1 : head_too_large env = none) (h2 : env.getConnect = none)
    (h3 : env.getStatus < 400) :
    direct_download url out_dir env =
      stream_loop url
        (adjust_out_path (os_path_join out_dir (pick_filename_from_url url))
          (parse_content_type env.contentType) env.guessExt)
        (head_log url env) env.events 0 0 0 [] := by
  unfold direct_download
  rw [h1, h2]
  dsimp only
  rw [if_neg (by omega)]

theorem direct_download_none_fileSize (url out_dir : String) (env : DlEnv)
    (h : (direct_download url out_dir env).result = none) :
    (direct_download url out_dir env).fileSize = none := by
  cases h1 : head_too_large env with
  | some cl => rw [direct_download_too_large url out_dir env cl h1]
  | none =>
      cases h2 : env.getConnect with
      | some e => rw [direct_download_connect_exn url out_dir env e h1 h2]
      | none =>
          by_cases h3 : 400 ≤ env.getStatus
          · rw [direct_download_status_error url out_dir env h1 h2 h3]
          · rw [direct_download_stream url out_dir env h1 h2 (by omega)] at h ⊢
            exact stream_loop_none_fileSize _ _ _ _ _ _ _ _ h

theorem direct_download_none_log (url out_dir : String) (env : DlEnv)
    (h : (direct_download url out_dir env).result = none) :
    ∃ m, (direct_download url out_dir env).log = head_log url env ++ [m] := by
  cases h1 : head_too_large env with
  | some cl => rw [direct_download_too_large url out_dir env cl h1]; exact ⟨_, rfl⟩
  | none =>
      cases h2 : env.getConnect with
      | some e => rw [direct_download_connect_exn url out_dir env e h1 h2]; exact ⟨_, rfl⟩
      | none =>
          by_cases h3 : 400 ≤ env.getStatus
          · rw [direct_download_status_error url out_dir env h1 h2 h3]; exact ⟨_, rfl⟩
          · rw [direct_download_stream url out_dir env h1 h2 (by omega)] at h ⊢
            exact stream_loop_none_log _ _ _ _ _ _ _ _ h

theorem direct_download_some_ne_empty (url out_dir : String) (env : DlEnv)
    (p : String) (h : (direct_download url out_dir env).result = some p) :
    p ≠ "" := by
  cases h1 : head_too_large env with
  | some cl => rw [direct_download_too_large url out_dir env cl h1] at h; simp at h
  | none =>
      cases h2 : env.getConnect with
      | some e => rw [direct_download_connect_exn url out_dir env e h1 h2] at h; simp at h
      | none =>
          by_cases h3 : 400 ≤ env.getStatus
          · rw [direct_download_status_error url out_dir env h1 h2 h3] at h; simp at h
          · rw [direct_download_stream url out_dir env h1 h2 (by omega)] at h
            have hp := stream_loop_result_some _ _ _ _ _ _ _ _ _ h
            subst hp
            unfold adjust_out_path
            have hbase : os_path_join out_dir (pick_filename_from_url url) ≠ "" :=
              os_path_join_ne_empty out_dir _ (pick_filename_ne_empty url)
            split
            · dsimp only
              split
              · exact append_ne_empty_of_left _ _ hbase
              · exact hbase
            · exact hbase

/-! ### Orchestrator characterization -/

theorem process_download_eq (url tmpdir : String) (env : Env) :
    process_download url tmpdir env =
      if falsy (run_yt_dlp url tmpdir env.yt).1 then
        deliver_or_fail (direct_download url tmpdir env.dl).result
          [Call.extract url tmpdir, Call.fetch url tmpdir]
          ((run_yt_dlp url tmpdir env.yt).2 ++ (direct_download url tmpdir env.dl).log)
          (some url) false
      else
        deliver_or_fail (run_yt_dlp url tmpdir env.yt).1 [Call.extract url tmpdir]
          ((run_yt_dlp url tmpdir env.yt).2) (some url) false := rfl

theorem deliver_or_fail_outcome_cases (fp : Option String) (c : List Call)
    (l : List String) (last : Option String) (b : Bool) :
    (deliver_or_fail fp c l last b).outcome = .failed MESSAGES_failed ∨
    ∃ p, fp = some p ∧ (deliver_or_fail fp c l last b).outcome = .delivered p := by
  unfold deliver_or_fail
  cases fp with
  | none => exact Or.inl rfl
  | some p =>
      dsimp only
      split
      · exact Or.inl rfl
      · exact Or.inr ⟨p, rfl, rfl⟩

/-! ## Claims -/

/-- C1: In every acquisition call the extraction invoker runs first and
completes before any fallback; the bounded stream fetcher is invoked —
with the same URL and the same scratch directory — exactly when the
extraction attempt fails (returns no file path), and never when it
succeeds. -/
theorem extraction_first_fallback_iff_failure (url tmpdir : String) (env : Env)
    (hdir : tmpdir ≠ "") :
    (process_download url tmpdir env).calls =
      if (run_yt_dlp url tmpdir env.yt).1 = none then
        [Call.extract url tmpdir, Call.fetch url tmpdir]
      else
        [Call.extract url tmpdir] := by
  rw [process_download_eq]
  cases hr : (run_yt_dlp url tmpdir env.yt).1 with
  | none =>
      simp only [falsy_none, if_true, deliver_or_fail_calls]
  | some p =>
      have hp : p ≠ "" := run_yt_dlp_some_ne_empty url tmpdir env.yt hdir p hr
      rw [falsy_eq_false_of_ne_empty p hp]
      simp only [Bool.false_eq_true, if_false, deliver_or_fail_calls,
        reduceCtorEq]

theorem extraction_first_fallback_iff_failure_witness :
    (("/scratch" : String) ≠ "" ∧
      (process_download "http://e/v" "/scratch" pd_env_fallback_ok).calls =
        if (run_yt_dlp "http://e/v" "/scratch" pd_env_fallback_ok.yt).1 = none then
          [Call.extract "http://e/v" "/scratch", Call.fetch "http://e/v" "/scratch"]
        else
          [Call.extract "http://e/v" "/scratch"]) :=
  ⟨by decide,
   extraction_first_fallback_iff_failure "http://e/v" "/scratch" pd_env_fallback_ok
     (by decide)⟩

/-- C2: Every acquisition call resolves to exactly one outcome — delivery
of a file or the unified failure message — and the scratch directory no
longer exists after the call returns, on every exit path. -/
theorem single_outcome_and_scratch_removed (url tmpdir : String) (env : Env) :
    (process_download url tmpdir env).tmpdirExists = false ∧
    (((process_download url tmpdir env).outcome = .failed MESSAGES_failed ∧
        ∀ p, (process_download url tmpdir env).outcome ≠ .delivered p) ∨
      ((∃ p, (process_download url tmpdir env).outcome = .delivered p) ∧
        ∀ m, (process_download url tmpdir env).outcome ≠ .failed m)) := by
  rw [process_download_eq]
  constructor
  · split
    · exact deliver_or_fail_tmpdir ..
    · exact deliver_or_fail_tmpdir ..
  · split
    · rcases deliver_or_fail_outcome_cases
        (direct_download url tmpdir env.dl).result
        [Call.extract url tmpdir, Call.fetch url tmpdir]
        ((run_yt_dlp url tmpdir env.yt).2 ++ (direct_download url tmpdir env.dl).log)
        (some url) false with h | ⟨p, _, h⟩
      · refine Or.inl ⟨h, ?_⟩
        intro q hq
        rw [h] at hq
        exact Outcome.noConfusion hq
      · refine Or.inr ⟨⟨p, h⟩, ?_⟩
        intro m hm
        rw [h] at hm
        exact Outcome.noConfusion hm
    · rcases deliver_or_fail_outcome_cases
        (run_yt_dlp url tmpdir env.yt).1 [Call.extract url tmpdir]
        ((run_yt_dlp url tmpdir env.yt).2) (some url) false with h | ⟨p, _, h⟩
      · refine Or.inl ⟨h, ?_⟩
        intro q hq
        rw [h] at hq
        exact Outcome.noConfusion hq
      · refine Or.inr ⟨⟨p, h⟩, ?_⟩
        intro m hm
        rw [h] at hm
        exact Outcome.noConfusion hm

/-- C3: If, during the streaming transfer, the running total of received
bytes exceeds the 80 MiB ceiling, the transfer aborts with the
limit-exceeded reason, the partial file is deleted, the call returns the
failure result, and no file remains on disk — enforced on actual received
bytes, with no reliance on a declared content-length (the hypothesis on
`head_too_large` is satisfied in particular when no probe result or no
content-length header is present). -/
theorem limit_exceeded_aborts_and_deletes (url out_dir : String) (env : DlEnv)
    (h1 : head_too_large env = none) (h2 : env.getConnect = none)
    (h3 : env.getStatus < 400)
    (h4 : MAX_DIRECT_DOWNLOAD_BYTES < chunks_before_exn env.events) :
    (direct_download url out_dir env).result = none ∧
    (direct_download url out_dir env).fileSize = none ∧
    (direct_download url out_dir env).log =
      head_log url env ++ ["Download exceeded limit for " ++ url] := by
  rw [direct_download_stream url out_dir env h1 h2 h3]
  exact stream_loop_abort url _ _ env.events 0 0 0 [] (by omega) (by omega)

theorem limit_exceeded_aborts_and_deletes_witness :
    (head_too_large dl_env_headless_exceed = none ∧
      dl_env_headless_exceed.getConnect = none ∧
      dl_env_headless_exceed.getStatus < 400 ∧
      MAX_DIRECT_DOWNLOAD_BYTES < chunks_before_exn dl_env_headless_exceed.events ∧
      ((direct_download "http://e/big.bin" "/scratch" dl_env_headless_exceed).result = none ∧
        (direct_download "http://e/big.bin" "/scratch" dl_env_headless_exceed).fileSize = none ∧
        (direct_download "http://e/big.bin" "/scratch" dl_env_headless_exceed).log =
          head_log "http://e/big.bin" dl_env_headless_exceed ++
            ["Download exceeded limit for http://e/big.bin"])) :=
  ⟨by decide, by decide, by decide, by decide,
   limit_exceeded_aborts_and_deletes "http://e/big.bin" "/scratch"
     dl_env_headless_exceed (by decide) (by decide) (by decide) (by decide)⟩

/-- C4: If the HEAD probe succeeds (non-error status) and declares a
content-length above the ceiling, the fetch returns the failure result
with the GET transfer never started and zero body reads and no file on
disk; if the probe itself failed, that is non-fatal and the GET transfer
proceeds. -/
theorem head_probe_short_circuit_and_nonfatal (url out_dir : String) (env : DlEnv) :
    (∀ h cl v, env.headResult = some h → h.status < 400 →
      h.contentLength = some cl → parse_content_length cl = some v →
      MAX_DIRECT_DOWNLOAD_BYTES < v →
      (direct_download url out_dir env).result = none ∧
      (direct_download url out_dir env).getPerformed = false ∧
      (direct_download url out_dir env).reads = 0 ∧
      (direct_download url out_dir env).fileSize = none) ∧
    (env.headResult = none →
      (direct_download url out_dir env).getPerformed = true) := by
  constructor
  · intro h cl v hh hst hcl hv hbig
    have htl : head_too_large env = some cl := by
      unfold head_too_large
      rw [hh]
      dsimp only
      rw [if_pos hst, hcl]
      dsimp only
      rw [hv]
      dsimp only
      rw [if_pos hbig]
    rw [direct_download_too_large url out_dir env cl htl]
    exact ⟨rfl, rfl, rfl, rfl⟩
  · intro hh
    have htl : head_too_large env = none := by
      unfold head_too_large
      rw [hh]
    cases h2 : env.getConnect with
    | some e => rw [direct_download_connect_exn url out_dir env e htl h2]
    | none =>
        by_cases h3 : 400 ≤ env.getStatus
        · rw [direct_download_status_error url out_dir env htl h2 h3]
        · rw [direct_download_stream url out_dir env htl h2 (by omega)]
          exact stream_loop_getPerformed ..

theorem head_probe_short_circuit_and_nonfatal_witness :
    (dl_env_declared_too_large.headResult = some ⟨200, some "209715200"⟩ ∧
      (200 : Nat) < 400 ∧
      parse_content_length "209715200" = some 209715200 ∧
      MAX_DIRECT_DOWNLOAD_BYTES < 209715200 ∧
      ((direct_download "http://e/big.iso" "/scratch" dl_env_declared_too_large).result = none ∧
        (direct_download "http://e/big.iso" "/scratch" dl_env_declared_too_large).getPerformed = false ∧
        (direct_download "http://e/big.iso" "/scratch" dl_env_declared_too_large).reads = 0 ∧
        (direct_download "http://e/big.iso" "/scratch" dl_env_declared_too_large).fileSize = none)) ∧
    (dl_env_headless_exceed.headResult = none ∧
      (direct_download "http://e/big.bin" "/scratch" dl_env_headless_exceed).getPerformed = true) :=
  ⟨⟨by decide, by decide, by decide, by decide,
    (head_probe_short_circuit_and_nonfatal "http://e/big.iso" "/scratch"
        dl_env_declared_too_large).1
      ⟨200, some "209715200"⟩ "209715200" 209715200 (by decide) (by decide)
      (by decide) (by decide) (by decide)⟩,
   ⟨by decide,
    (head_probe_short_circuit_and_nonfatal "http://e/big.bin" "/scratch"
        dl_env_headless_exceed).2 (by decide)⟩⟩

set_option maxRecDepth 8192 in
set_option maxRecDepth 8192 in
theorem single_outcome_and_scratch_removed_witness :
    (process_download "http://e/v" "/scratch" pd_env_404).tmpdirExists = false ∧
    (((process_download "http://e/v" "/scratch" pd_env_404).outcome =
          .failed MESSAGES_failed ∧
        ∀ p, (process_download "http://e/v" "/scratch" pd_env_404).outcome ≠
          .delivered p) ∨
      ((∃ p, (process_download "http://e/v" "/scratch" pd_env_404).outcome =
          .delivered p) ∧
        ∀ m, (process_download "http://e/v" "/scratch" pd_env_404).outcome ≠
          .failed m)) :=
  single_outcome_and_scratch_removed "http://e/v" "/scratch" pd_env_404

set_option maxRecDepth 8192 in
/-- C5 counterexample: the user-visible Failure does not carry the
fallback fetcher's reason. Two runs whose fetch attempts fail for
different reasons (HTTP 404 vs HTTP 500, visibly different in the log)
produce identical Failure outcomes, the fixed unified failure message. -/
theorem failure_carries_no_reason_counterexample :
    (process_download "http://e/v" "/scratch" pd_env_404).outcome =
      .failed MESSAGES_failed ∧
    (process_download "http://e/v" "/scratch" pd_env_500).outcome =
      .failed MESSAGES_failed ∧
    (direct_download "http://e/v" "/scratch" pd_env_404.dl).log ≠
      (direct_download "http://e/v" "/scratch" pd_env_500.dl).log ∧
    (process_download "http://e/v" "/scratch" pd_env_404).outcome =
      (process_download "http://e/v" "/scratch" pd_env_500).outcome := by
  refine ⟨?_, ?_, ?_, ?_⟩ <;> decide

/-- C5 (amended): when both attempts fail, the call yields the single
unified failure message (which carries neither reason); the two reasons
are only logged, the extraction-side entries first and the fetcher's
failure reason as the final log entry. -/
theorem both_fail_unified_message_fetch_reason_logged_last
    (url tmpdir : String) (env : Env)
    (hy : (run_yt_dlp url tmpdir env.yt).1 = none)
    (hd : (direct_download url tmpdir env.dl).result = none) :
    (process_download url tmpdir env).outcome = .failed MESSAGES_failed ∧
    (process_download url tmpdir env).log =
      (run_yt_dlp url tmpdir env.yt).2 ++ (direct_download url tmpdir env.dl).log ∧
    ∃ m, (direct_download url tmpdir env.dl).log = head_log url env.dl ++ [m] ∧
      (process_download url tmpdir env).log.getLast? = some m := by
  rw [process_download_eq, hy]
  simp only [falsy_none, if_true]
  obtain ⟨m, hm⟩ := direct_download_none_log url tmpdir env.dl hd
  refine ⟨?_, ?_, m, hm, ?_⟩
  · rw [deliver_or_fail_outcome_falsy]
    rw [hd]
    rfl
  · exact deliver_or_fail_log ..
  · rw [deliver_or_fail_log, hm, ← List.append_assoc]
    exact List.getLast?_concat _

theorem both_fail_unified_message_fetch_reason_logged_last_witness :
    ((run_yt_dlp "http://e/v" "/scratch" pd_env_404.yt).1 = none ∧
      (direct_download "http://e/v" "/scratch" pd_env_404.dl).result = none ∧
      ((process_download "http://e/v" "/scratch" pd_env_404).outcome =
          .failed MESSAGES_failed ∧
        (process_download "http://e/v" "/scratch" pd_env_404).log =
          (run_yt_dlp "http://e/v" "/scratch" pd_env_404.yt).2 ++
            (direct_download "http://e/v" "/scratch" pd_env_404.dl).log ∧
        ∃ m, (direct_download "http://e/v" "/scratch" pd_env_404.dl).log =
            head_log "http://e/v" pd_env_404.dl ++ [m] ∧
          (process_download "http://e/v" "/scratch" pd_env_404).log.getLast? =
            some m)) :=
  ⟨by decide, by decide,
   both_fail_unified_message_fetch_reason_logged_last "http://e/v" "/scratch"
     pd_env_404 (by decide) (by decide)⟩

/-- C6: when the filename derived from the URL path has no extension and
the response declares a content type that resolves to an extension the
output name does not already end with, that extension is appended to the
output path; a content type that resolves to no extension leaves the
name unchanged. -/
theorem extension_appended_from_content_type (url out_dir : String) (env : DlEnv)
    (h1 : head_too_large env = none) (h2 : env.getConnect = none)
    (h3 : env.getStatus < 400) :
    (str_contains (os_path_basename (os_path_join out_dir (pick_filename_from_url url))) '.'
        = false →
      parse_content_type env.contentType ≠ "" →
      ∀ ext, env.guessExt (parse_content_type env.contentType) = some ext →
        ext ≠ "" →
        str_endswith (os_path_join out_dir (pick_filename_from_url url)) ext = false →
        (direct_download url out_dir env).outPath =
          os_path_join out_dir (pick_filename_from_url url) ++ ext) ∧
    (env.guessExt (parse_content_type env.contentType) = none →
      (direct_download url out_dir env).outPath =
        os_path_join out_dir (pick_filename_from_url url)) := by
  rw [direct_download_stream url out_dir env h1 h2 h3]
  rw [stream_loop_outPath]
  constructor
  · intro hdot hct ext hguess hext hends
    unfold adjust_out_path
    rw [hdot, hguess]
    simp [hct, hext, hends]
  · intro hnone
    unfold adjust_out_path
    rw [hnone]
    simp

theorem extension_appended_from_content_type_witness :
    (head_too_large dl_env_ok = none ∧
      dl_env_ok.getConnect = none ∧
      dl_env_ok.getStatus < 400 ∧
      str_contains
          (os_path_basename
            (os_path_join "/scratch" (pick_filename_from_url "https://example.com/clip"))) '.'
        = false ∧
      parse_content_type dl_env_ok.contentType ≠ "" ∧
      dl_env_ok.guessExt (parse_content_type dl_env_ok.contentType) = some ".mp4" ∧
      (".mp4" : String) ≠ "" ∧
      str_endswith (os_path_join "/scratch" (pick_filename_from_url "https://example.com/clip"))
          ".mp4"
        = false ∧
      (direct_download "https://example.com/clip" "/scratch" dl_env_ok).outPath =
        os_path_join "/scratch" (pick_filename_from_url "https://example.com/clip") ++ ".mp4" ∧
      str_endswith (direct_download "https://example.com/clip" "/scratch" dl_env_ok).outPath
          ".mp4"
        = true) :=
  ⟨by decide, by decide, by decide, by decide, by decide, by decide, by decide,
   by decide,
   (extension_appended_from_content_type "https://example.com/clip" "/scratch"
       dl_env_ok (by decide) (by decide) (by decide)).1
     (by decide) (by decide) ".mp4" (by decide) (by decide) (by decide),
   by decide⟩

theorem sort_by_mtime_desc_head_max (files : List FileEntry)
    (f : FileEntry) (rest : List FileEntry)
    (h : sort_by_mtime_desc files = f :: rest) :
    f ∈ files ∧ ∀ g ∈ files, g.mtime ≤ f.mtime := by
  unfold sort_by_mtime_desc at h
  constructor
  · have hmem : f ∈ files.mergeSort (fun a b => decide (b.mtime ≤ a.mtime)) := by
      rw [h]
      exact List.mem_cons_self _ _
    exact List.mem_mergeSort.mp hmem
  · intro g hg
    have hsorted :=
      @List.sorted_mergeSort FileEntry
        (fun a b : FileEntry => decide (b.mtime ≤ a.mtime))
        (fun a b c hab hbc => by
          simp only [decide_eq_true_eq] at *
          omega)
        (fun a b => by
          simp only [Bool.or_eq_true, decide_eq_true_eq]
          exact Nat.le_total b.mtime a.mtime)
        files
    rw [h] at hsorted
    have hg' : g ∈ f :: rest := by
      rw [← h]
      exact List.mem_mergeSort.mpr hg
    rcases List.mem_cons.mp hg' with rfl | hg''
    · exact Nat.le_refl _
    · have := (List.pairwise_cons.mp hsorted).1 g hg''
      simpa using this

/-- C7: when the extraction tool exits with code 0, an empty working
directory yields the no-output failure (`none`), and otherwise the file
of the working directory with the latest modification timestamp is
returned. -/
theorem exit_zero_selects_latest_file (url out_dir : String) (env : YtEnv)
    (stderr : String) (hsp : env.spawn = SpawnOutcome.completed 0 stderr) :
    (env.files = [] → (run_yt_dlp url out_dir env).1 = none) ∧
    (env.files ≠ [] → ∃ f ∈ env.files,
      (run_yt_dlp url out_dir env).1 = some (os_path_join out_dir f.name) ∧
      ∀ g ∈ env.files, g.mtime ≤ f.mtime) := by
  unfold run_yt_dlp
  rw [hsp]
  dsimp only
  rw [if_neg (fun h => h rfl)]
  constructor
  · intro hnil
    rw [hnil]
    simp [sort_by_mtime_desc]
  · intro hne
    cases hms : sort_by_mtime_desc env.files with
    | nil =>
        exfalso
        apply hne
        have := congrArg List.length hms
        unfold sort_by_mtime_desc at this
        rw [List.length_mergeSort] at this
        exact List.length_eq_zero.mp this
    | cons f rest =>
        obtain ⟨hf, hmax⟩ := sort_by_mtime_desc_head_max env.files f rest hms
        exact ⟨f, hf, rfl, hmax⟩

theorem exit_zero_selects_latest_file_witness :
    (yt_env_outputs.spawn = SpawnOutcome.completed 0 "" ∧
      ((yt_env_outputs.files = [] →
          (run_yt_dlp "http://e/v" "/scratch" yt_env_outputs).1 = none) ∧
        (yt_env_outputs.files ≠ [] → ∃ f ∈ yt_env_outputs.files,
          (run_yt_dlp "http://e/v" "/scratch" yt_env_outputs).1 =
            some (os_path_join "/scratch" f.name) ∧
          ∀ g ∈ yt_env_outputs.files, g.mtime ≤ f.mtime))) :=
  ⟨by decide,
   exit_zero_selects_latest_file "http://e/v" "/scratch" yt_env_outputs ""
     (by decide)⟩

/-- C8: the retry slot holds at most one URL per session: recording
overwrites, so after recording u1 then u2 the slot yields u2; after a
clear, or for a session that never recorded, the slot is empty and the
retry action reports the "no previous URL" message instead of silently
doing nothing. -/
theorem retry_slot_overwrite_and_clear (m : SessionMap) (s u1 u2 : String) :
    session_last (session_record (session_record m s u1) s u2) s = some u2 ∧
    session_last (session_clear m s) s = none ∧
    session_last session_empty s = none ∧
    handle_retry (session_clear m s s) = .prompt MESSAGES_no_previous_url ∧
    handle_retry (session_empty s) = .prompt MESSAGES_no_previous_url := by
  refine ⟨?_, ?_, rfl, ?_, rfl⟩
  · unfold session_last session_record get_last_url record_last_url
    rw [if_pos rfl]
  · unfold session_last session_clear get_last_url clear_user_data
    rw [if_pos rfl]
  · unfold session_clear clear_user_data handle_retry get_last_url
    rw [if_pos rfl]

/-- C9: the cumulative-total check precedes every disk write, so at every
point of the transfer the bytes written to the output file stay at or
below the ceiling, the file on disk after the call never exceeds the
ceiling, and a successful fetch reports a file of size at most the
ceiling. -/
theorem written_bytes_never_exceed_ceiling (url out_dir : String) (env : DlEnv) :
    (∀ s ∈ (direct_download url out_dir env).sizes,
        s ≤ MAX_DIRECT_DOWNLOAD_BYTES) ∧
    (∀ n, (direct_download url out_dir env).fileSize = some n →
        n ≤ MAX_DIRECT_DOWNLOAD_BYTES) ∧
    (∀ p, (direct_download url out_dir env).result = some p →
        ∃ n, (direct_download url out_dir env).fileSize = some n ∧
          n ≤ MAX_DIRECT_DOWNLOAD_BYTES) := by
  cases h1 : head_too_large env with
  | some cl =>
      rw [direct_download_too_large url out_dir env cl h1]
      exact ⟨fun s hs => absurd hs (List.not_mem_nil s), fun n hn => by simp at hn,
        fun p hp => by simp at hp⟩
  | none =>
      cases h2 : env.getConnect with
      | some e =>
          rw [direct_download_connect_exn url out_dir env e h1 h2]
          exact ⟨fun s hs => absurd hs (List.not_mem_nil s), fun n hn => by simp at hn,
            fun p hp => by simp at hp⟩
      | none =>
          by_cases h3 : 400 ≤ env.getStatus
          · rw [direct_download_status_error url out_dir env h1 h2 h3]
            exact ⟨fun s hs => absurd hs (List.not_mem_nil s), fun n hn => by simp at hn,
              fun p hp => by simp at hp⟩
          · rw [direct_download_stream url out_dir env h1 h2 (by omega)]
            exact stream_loop_size_bound url _ _ env.events 0 0 0 []
              (Nat.le_refl 0) (by omega) (fun s hs => absurd hs (List.not_mem_nil s))

theorem written_bytes_never_exceed_ceiling_witness :
    ((12 : Nat) ∈ (direct_download "http://e/clip" "/scratch" dl_env_ok).sizes ∧
      (12 : Nat) ≤ MAX_DIRECT_DOWNLOAD_BYTES) ∧
    ((direct_download "http://e/clip" "/scratch" dl_env_ok).fileSize = some 12 ∧
      (12 : Nat) ≤ MAX_DIRECT_DOWNLOAD_BYTES) ∧
    (∃ n, (direct_download "http://e/clip" "/scratch" dl_env_ok).fileSize = some n ∧
      n ≤ MAX_DIRECT_DOWNLOAD_BYTES) :=
  ⟨⟨by decide,
    (written_bytes_never_exceed_ceiling "http://e/clip" "/scratch" dl_env_ok).1
      12 (by decide)⟩,
   ⟨by decide,
    (written_bytes_never_exceed_ceiling "http://e/clip" "/scratch" dl_env_ok).2.1
      12 (by decide)⟩,
   (written_bytes_never_exceed_ceiling "http://e/clip" "/scratch" dl_env_ok).2.2
     "/scratch/clip.mp4" (by decide)⟩

/-- C10: neither attempt function propagates an exception: a missing tool
binary or an unexpected exception in the extraction invoker yields the
`none` result; a connection-time exception or a mid-stream exception in
the bounded stream fetcher yields the `none` result with no file left on
disk; and on every failure return of the fetcher the partial output file
has been removed. -/
theorem attempts_catch_all_faults (url out_dir msg : String)
    (files : List FileEntry) (env : DlEnv) :
    (run_yt_dlp url out_dir ⟨SpawnOutcome.fileNotFound, files⟩).1 = none ∧
    (run_yt_dlp url out_dir ⟨SpawnOutcome.otherExc msg, files⟩).1 = none ∧
    (∀ e, env.getConnect = some e →
      (direct_download url out_dir env).result = none ∧
      (direct_download url out_dir env).fileSize = none) ∧
    (has_exn env.events = true →
      chunks_before_exn env.events ≤ MAX_DIRECT_DOWNLOAD_BYTES →
      head_too_large env = none → env.getConnect = none → env.getStatus < 400 →
      (direct_download url out_dir env).result = none ∧
      (direct_download url out_dir env).fileSize = none ∧
      ∃ e, (direct_download url out_dir env).log =
        head_log url env ++ ["Direct download failed for " ++ url ++ ": " ++ e]) ∧
    ((direct_download url out_dir env).result = none →
      (direct_download url out_dir env).fileSize = none) := by
  refine ⟨rfl, rfl, ?_, ?_, direct_download_none_fileSize url out_dir env⟩
  · intro e he
    cases h1 : head_too_large env with
    | some cl => rw [direct_download_too_large url out_dir env cl h1]; exact ⟨rfl, rfl⟩
    | none => rw [direct_download_connect_exn url out_dir env e h1 he]; exact ⟨rfl, rfl⟩
  · intro hx hle h1 h2 h3
    rw [direct_download_stream url out_dir env h1 h2 h3]
    exact stream_loop_exn url _ _ env.events 0 0 0 [] hx (by omega)

theorem attempts_catch_all_faults_witness :
    ((run_yt_dlp "http://e/v" "/scratch" ⟨SpawnOutcome.fileNotFound, []⟩).1 = none ∧
      (run_yt_dlp "http://e/v" "/scratch" ⟨SpawnOutcome.otherExc "oom", []⟩).1 = none) ∧
    (dl_env_midstream_exn.events = [Ev.chunk 5, Ev.exn "connection reset"] ∧
      ((direct_download "http://e/v" "/scratch" dl_env_midstream_exn).result = none ∧
        (direct_download "http://e/v" "/scratch" dl_env_midstream_exn).fileSize = none ∧
        ∃ e, (direct_download "http://e/v" "/scratch" dl_env_midstream_exn).log =
          head_log "http://e/v" dl_env_midstream_exn ++
            ["Direct download failed for http://e/v: " ++ e])) :=
  ⟨⟨(attempts_catch_all_faults "http://e/v" "/scratch" "oom" [] dl_env_midstream_exn).1,
    (attempts_catch_all_faults "http://e/v" "/scratch" "oom" [] dl_env_midstream_exn).2.1⟩,
   ⟨by decide,
    (attempts_catch_all_faults "http://e/v" "/scratch" "oom" [] dl_env_midstream_exn).2.2.2.1
      (by decide) (by decide) (by decide) (by decide) (by decide)⟩⟩

end Bot
